import Mathlib

/-!
Verification of the real-time log-event distribution subsystem
(`backend/api/realtime.py` and `backend/api/consumers.py`).

The Python code is shallowly embedded: each class becomes a structure, each
method a pure function.  Wall-clock time (`time.time()`) is threaded through
as an explicit integer parameter `now` (time measured in seconds; every
claim concerns integral instants, so ℤ suffices as the time axis), and the
string `datetime.utcnow().isoformat()` as an explicit parameter `nowIso`.
Python's truthiness-based defaulting (`x or y`, `if value:`) is modelled
explicitly.  Python dicts are modelled as insertion-ordered association
lists with unique keys.
-/

/-! ### Python-semantics helpers -/

/-- `a or b` on two optional strings: `None` and `""` are falsy. -/
def pyOr (a b : Option String) : Option String :=
  match a with
  | some s => if s = "" then b else some s
  | none => b

/-- `a or b` where the fallback `b` is always present. -/
def pyOrD (a : Option String) (b : String) : String :=
  match a with
  | some s => if s = "" then b else s
  | none => b

/-- ASCII lower-casing of one character, as `str.lower()` does for the
7-bit range the log levels use. -/
def lowerChar (c : Char) : Char :=
  if 'A' ≤ c ∧ c ≤ 'Z' then Char.ofNat (c.toNat + 32) else c

/-- `str.lower()`. -/
def pyLower (s : String) : String := String.mk (s.data.map lowerChar)

/-- ASCII upper-casing of one character, as `str.upper()` does. -/
def upperChar (c : Char) : Char :=
  if 'a' ≤ c ∧ c ≤ 'z' then Char.ofNat (c.toNat - 32) else c

/-- `str.upper()`. -/
def pyUpper (s : String) : String := String.mk (s.data.map upperChar)

/-- `s[:n]` string slicing. -/
def strTake (s : String) (n : ℕ) : String := String.mk (s.data.take n)

/-- `d[k] = v` on an insertion-ordered dict: update in place if the key is
present, else append at the end. -/
def dictInsert {β : Type} : List (String × β) → String → β → List (String × β)
  | [], k, v => [(k, v)]
  | (k', v') :: rest, k, v =>
    if k' = k then (k, v) :: rest else (k', v') :: dictInsert rest k v

/-- `del d[k]` / `d.pop(k, None)` on an insertion-ordered dict. -/
def dictRemove {β : Type} : List (String × β) → String → List (String × β)
  | [], _ => []
  | (k', v') :: rest, k =>
    if k' = k then rest else (k', v') :: dictRemove rest k

/-- `deque(maxlen=m).append(x)`: append at the right, evicting the leftmost
entry when the deque is full. -/
def dequeAppend {α : Type} (maxlen : ℕ) (l : List α) (x : α) : List α :=
  if l.length < maxlen then l ++ [x] else l.tail ++ [x]

/-! ## SlidingWindowCounter (realtime.py, lines 105-133)

`@dataclass SlidingWindowCounter`: a window length in seconds and a deque of
event timestamps.  The deque is modelled as a list whose head is the deque's
left end; `append` adds at the right, `popleft` removes the head. -/

structure SlidingWindowCounter where
  window_seconds : ℤ
  events : List ℤ
deriving DecidableEq

namespace SlidingWindowCounter

/-- `_cleanup`: `while self._events and self._events[0] < cutoff: popleft()`
with `cutoff = time.time() - self.window_seconds`.  The loop removes the
longest prefix of timestamps strictly below the cutoff. -/
def cleanup (c : SlidingWindowCounter) (now : ℤ) : SlidingWindowCounter :=
  { c with events := c.events.dropWhile (fun t => decide (t < now - c.window_seconds)) }

/-- `add`: `ts = timestamp or time.time()` — Python truthiness: an absent
argument *or a supplied zero* both yield the current time — then append and
clean up. -/
def add (c : SlidingWindowCounter) (now : ℤ) (timestamp : Option ℤ) : SlidingWindowCounter :=
  let ts := match timestamp with
    | some t => if t = 0 then now else t
    | none => now
  cleanup { c with events := c.events ++ [ts] } now

/-- `count`: clean up, then the number of retained events. -/
def count (c : SlidingWindowCounter) (now : ℤ) : ℕ :=
  (c.cleanup now).events.length

/-- `rate_per_second`: clean up; `0.0` on an empty window, else
`len(self._events) / self.window_seconds` (real division, hence a rational
result). -/
def rate_per_second (c : SlidingWindowCounter) (now : ℤ) : ℚ :=
  if (c.cleanup now).events = [] then 0
  else ((c.cleanup now).events.length : ℚ) / (c.window_seconds : ℚ)

end SlidingWindowCounter

/-! ## ConnectionTracker (realtime.py, lines 35-95)

`_connections: Dict[str, Set[str]]` maps a channel group to the set of
connection channel names; sets are modelled as duplicate-free lists (the
insertion order of a Python set is irrelevant to every observable here,
which are counts and membership).  `_user_info` maps a channel name to
per-connection info; of its three entries only `user_id` and `group` are
modelled (`connected_at`, a wall-clock string never read by any operation,
is elided). -/

structure ConnectionTracker where
  connections : List (String × List String)
  user_info : List (String × (String × String))
deriving DecidableEq

namespace ConnectionTracker

/-- `add_connection(group, channel_name, user_id=None)`: ensure the group's
set exists, add the channel name to it, record user info when `user_id` is
truthy, and return the group's new count. -/
def add_connection (t : ConnectionTracker) (group channel_name : String)
    (user_id : Option String) : ConnectionTracker × ℕ :=
  let conns := (t.connections.lookup group).getD []
  let conns' := if channel_name ∈ conns then conns else conns ++ [channel_name]
  let ui := match user_id with
    | some uid => if uid = "" then t.user_info
        else dictInsert t.user_info channel_name (uid, group)
    | none => t.user_info
  (⟨dictInsert t.connections group conns', ui⟩, conns'.length)

/-- `remove_connection(group, channel_name)`: discard the channel name from
the group's set (a no-op if absent), delete the group once its set is empty,
drop the user info, and return the group's remaining count. -/
def remove_connection (t : ConnectionTracker) (group channel_name : String) :
    ConnectionTracker × ℕ :=
  let connections' := match t.connections.lookup group with
    | none => t.connections
    | some conns =>
      let conns' := conns.erase channel_name
      if conns' = [] then dictRemove t.connections group
      else dictInsert t.connections group conns'
  let t' : ConnectionTracker := ⟨connections', dictRemove t.user_info channel_name⟩
  (t', ((connections'.lookup group).getD []).length)

/-- `get_count(group)`: `len(self._connections.get(group, set()))`. -/
def get_count (t : ConnectionTracker) (group : String) : ℕ :=
  ((t.connections.lookup group).getD []).length

/-- `get_total_count()`: total connections across all groups. -/
def get_total_count (t : ConnectionTracker) : ℕ :=
  (t.connections.map (fun p => p.2.length)).sum

/-- `get_all_counts()`: connection counts per group. -/
def get_all_counts (t : ConnectionTracker) : List (String × ℕ) :=
  t.connections.map (fun p => (p.1, p.2.length))

end ConnectionTracker

/-! ## Log normalization (realtime.py, lines 388-406)

`RedisPubSubBridge._normalize_log` receives the decoded JSON object.  The
fields it reads are modelled as optional strings; the nested `"parsed"`
object carries its six known fields plus the open map of unmapped fields
(which becomes `metadata`). -/

structure ParsedFields where
  timestamp : Option String
  level : Option String
  message : Option String
  source : Option String
  service_name : Option String
  environment : Option String
  extra : List (String × String)
deriving DecidableEq

/-- The raw payload fields `_normalize_log` reads: `_id`,
`@metadata._id`, `@timestamp`, `level`, `message`, `source`, `host.name`,
`service_name`, `environment` and the nested `parsed` object. -/
structure LogPayload where
  idField : Option String
  metadataId : Option String
  atTimestamp : Option String
  level : Option String
  message : Option String
  source : Option String
  hostName : Option String
  service_name : Option String
  environment : Option String
  parsed : Option ParsedFields
deriving DecidableEq

def emptyParsed : ParsedFields := ⟨none, none, none, none, none, none, []⟩

structure NormalizedLog where
  id : String
  timestamp : String
  level : String
  message : String
  source : Option String
  service_name : Option String
  environment : Option String
  metadata : List (String × String)
deriving DecidableEq

/-- `str(time.time())`, the generated fallback id. -/
def timeStr (now : ℤ) : String := toString now

/-- `_normalize_log`, field by field:
`id = log_data.get('_id') or log_data.get('@metadata', {}).get('_id') or str(time.time())`,
`timestamp = log_data.get('@timestamp') or parsed.get('timestamp') or utcnow().isoformat()`,
`level = (parsed.get('level') or log_data.get('level', 'info')).lower()`,
`message = parsed.get('message') or log_data.get('message', '')`,
`source = parsed.get('source') or log_data.get('source') or log_data.get('host', {}).get('name')`,
`service_name = parsed.get('service_name') or log_data.get('service_name')`,
`environment = parsed.get('environment') or log_data.get('environment')`,
`metadata = the parsed items other than the six mapped keys`. -/
def normalize_log (now : ℤ) (nowIso : String) (log_data : LogPayload) : NormalizedLog :=
  let parsed := log_data.parsed.getD emptyParsed
  { id := pyOrD log_data.idField (pyOrD log_data.metadataId (timeStr now)),
    timestamp := pyOrD log_data.atTimestamp (pyOrD parsed.timestamp nowIso),
    level := pyLower (pyOrD parsed.level (log_data.level.getD "info")),
    message := pyOrD parsed.message (log_data.message.getD ""),
    source := pyOr parsed.source (pyOr log_data.source log_data.hostName),
    service_name := pyOr parsed.service_name log_data.service_name,
    environment := pyOr parsed.environment log_data.environment,
    metadata := parsed.extra }

/-! ## MetricsAggregator (realtime.py, lines 136-246)

Counters as initialized by `_init_counters`; `_level_counters` and
`_source_counters` are lazily-populated insertion-ordered dicts; the two
histories are deques with `maxlen=300`. -/

/-- The shape of the dict `record_log` reads: `level`, `source`,
`service_name` (each possibly absent or `None`). -/
structure LogData where
  level : Option String
  source : Option String
  service_name : Option String
deriving DecidableEq

structure MetricsAggregator where
  logs_counter : SlidingWindowCounter
  errors_counter : SlidingWindowCounter
  warnings_counter : SlidingWindowCounter
  criticals_counter : SlidingWindowCounter
  level_counters : List (String × SlidingWindowCounter)
  source_counters : List (String × SlidingWindowCounter)
  logs_history : List (ℤ × ℚ)
  errors_history : List (ℤ × ℕ)
  last_sample_time : ℤ
deriving DecidableEq

namespace MetricsAggregator

/-- `_init_counters`: 10-second total-rate counter, 60-second
error/warning/critical counters, empty lazy dicts, empty histories,
`_last_sample_time = 0`. -/
def init_counters : MetricsAggregator :=
  ⟨⟨10, []⟩, ⟨60, []⟩, ⟨60, []⟩, ⟨60, []⟩, [], [], [], [], 0⟩

/-- `record_log(log_data)` at wall-clock time `now` (the Python body binds
`now = time.time()` once and passes it to every counter).  The final branch
is `_sample_history`, whose `rate_per_second()`/`count()` calls also prune
the two counters they read. -/
def record_log (a : MetricsAggregator) (now : ℤ) (log_data : LogData) : MetricsAggregator :=
  let a1 : MetricsAggregator := { a with logs_counter := a.logs_counter.add now (some now) }
  let level := pyLower (log_data.level.getD "info")
  let lc := (a1.level_counters.lookup level).getD ⟨60, []⟩
  let a2 : MetricsAggregator :=
    { a1 with level_counters := dictInsert a1.level_counters level (lc.add now (some now)) }
  let a3 : MetricsAggregator :=
    if level = "error" then
      { a2 with errors_counter := a2.errors_counter.add now (some now) }
    else if level = "warning" then
      { a2 with warnings_counter := a2.warnings_counter.add now (some now) }
    else if level = "critical" then
      { a2 with criticals_counter := a2.criticals_counter.add now (some now),
                errors_counter := a2.errors_counter.add now (some now) }
    else a2
  let source := pyOrD log_data.source (pyOrD log_data.service_name "unknown")
  let sc := (a3.source_counters.lookup source).getD ⟨60, []⟩
  let a4 : MetricsAggregator :=
    { a3 with source_counters := dictInsert a3.source_counters source (sc.add now (some now)) }
  if 1 ≤ now - a4.last_sample_time then
    { a4 with
      logs_counter := a4.logs_counter.cleanup now,
      errors_counter := a4.errors_counter.cleanup now,
      logs_history := dequeAppend 300 a4.logs_history (now, a4.logs_counter.rate_per_second now),
      errors_history := dequeAppend 300 a4.errors_history (now, a4.errors_counter.count now),
      last_sample_time := now }
  else a4

/-- Folding `record_log` over a sequence of events arriving at one instant. -/
def record_many (a : MetricsAggregator) (now : ℤ) (lds : List LogData) : MetricsAggregator :=
  lds.foldl (fun acc ld => record_log acc now ld) a

/-- The `level_dist` computation in `get_metrics`: 60-second level counts,
keeping only nonzero ones, in dict insertion order. -/
def level_distribution (a : MetricsAggregator) (now : ℤ) : List (String × ℕ) :=
  (a.level_counters.map (fun p => (p.1, p.2.count now))).filter (fun p => decide (0 < p.2))

/-- The `top_sources` computation in `get_metrics`: nonzero 60-second source
counts, sorted non-increasing by count (Python's stable `sort` with
`reverse=True`), truncated to the first 10. -/
def top_sources (a : MetricsAggregator) (now : ℤ) : List (String × ℕ) :=
  (((a.source_counters.map (fun p => (p.1, p.2.count now))).filter
      (fun p => decide (0 < p.2))).mergeSort
    (fun x y => decide (y.2 ≤ x.2))).take 10

/-- `round(x, 1)`.  Python rounds the float half-to-even; no claim exercises
an exact tie, so ordinary rounding of the rational is used. -/
def round1 (q : ℚ) : ℚ := (round (q * 10) : ℤ) / 10

/-- One value of the metrics snapshot dict. -/
inductive MetricValue
  | rat (q : ℚ)
  | nat (n : ℕ)
  | dict (d : List (String × ℕ))
  | sources (s : List (String × ℕ))
deriving DecidableEq

/-- `get_metrics()`: the snapshot dict, with the keys spelled exactly as in
the source.  `connected_users` queries the global `connection_tracker`,
passed here explicitly. -/
def get_metrics (a : MetricsAggregator) (tracker : ConnectionTracker) (now : ℤ) :
    List (String × MetricValue) :=
  [("logs_per_second", .rat (round1 (a.logs_counter.rate_per_second now))),
   ("errors_per_minute", .nat (a.errors_counter.count now)),
   ("warnings_per_minute", .nat (a.warnings_counter.count now)),
   ("criticals_per_minute", .nat (a.criticals_counter.count now)),
   ("connected_users", .nat (tracker.get_count "log_stream")),
   ("top_sources", .sources (top_sources a now)),
   ("level_distribution", .dict (level_distribution a now))]

end MetricsAggregator

/-! ## RedisPubSubBridge message processing (realtime.py, lines 330-406)

`_process_message` ignores non-`'message'` pub/sub frames, decodes the
payload, normalizes it, records metrics, and broadcasts: always one
`new_log` group-send to `'log_stream'`, and for error/critical levels one
additional `alert_notification` group-send to `'notifications_broadcast'`.
The `data` dict of the alert is modelled field by field; the
`timestamp` entries of the channel-layer envelopes (fresh `utcnow()`
strings) are elided as no claim mentions them. -/

/-- The alert `data` dict: note `source` is
`normalized_log.get('source', 'logs')` — the key is always present in a
normalized log (possibly with value `None`), so the `'logs'` default is
never taken. -/
structure AlertData where
  id : String
  severity : String
  title : String
  message : String
  source : Option String
  log_id : String
deriving DecidableEq

inductive GroupMessage
  | new_log (data : NormalizedLog)
  | alert_notification (data : AlertData)
deriving DecidableEq

/-- A decoded Redis pub/sub frame: its `type` and its already-deserialized
`data` payload. -/
structure RedisMessage where
  type : String
  data : LogPayload
deriving DecidableEq

/-- `_process_message`, returning the updated aggregator state and the list
of `(group, message)` deliveries handed to the channel layer, in send
order. -/
def process_message (a : MetricsAggregator) (now : ℤ) (nowIso : String)
    (msg : RedisMessage) : MetricsAggregator × List (String × GroupMessage) :=
  if msg.type ≠ "message" then (a, [])
  else
    let n := normalize_log now nowIso msg.data
    let a' := a.record_log now ⟨some n.level, n.source, n.service_name⟩
    let level := pyLower n.level
    if level = "error" ∨ level = "critical" then
      (a', [("log_stream", .new_log n),
            ("notifications_broadcast", .alert_notification
              { id := n.id,
                severity := if level = "critical" then "critical" else "high",
                title := pyUpper level ++ " Log Event",
                message := strTake n.message 200,
                source := n.source,
                log_id := n.id })])
    else (a', [("log_stream", .new_log n)])

/-! ## RedisPubSubBridge reconnect backoff (realtime.py, lines 249-256, 282-307, 408-449)

`__init__` sets `_reconnect_delay = 1`, `_max_reconnect_delay = 30`.  In the
`run` loop a failed `connect` (or a listener error) sleeps for the current
delay and then sets `_reconnect_delay = min(_reconnect_delay * 2, 30)`;
a successful `connect` resets `_reconnect_delay = 1` and sleeps nothing.
A run is abstracted as the sequence of connect/listen outcomes
(`true` = success, `false` = failure); `sleeps` is the resulting sequence of
sleep durations. -/

namespace RedisPubSubBridge

/-- `self._reconnect_delay = min(self._reconnect_delay * 2, self._max_reconnect_delay)` -/
def reconnectStep (d : ℕ) : ℕ := min (d * 2) 30

/-- The sleep durations of a run, threading `_reconnect_delay` through the
outcome sequence. -/
def sleeps : ℕ → List Bool → List ℕ
  | _, [] => []
  | _, true :: rest => sleeps 1 rest
  | d, false :: rest => d :: sleeps (reconnectStep d) rest

end RedisPubSubBridge

/-! ## LogStreamConsumer filtering (consumers.py, lines 229-251)

`new_log` applies the connection's stored `self.filters` dict — the
`{level?, source?, environment?}` predicate set by `set_filters` — to the
incoming normalized log and sends it only when every present condition
matches.  An empty filter dict is falsy, so the checks are skipped
entirely. -/

structure SubscriberFilter where
  level : Option String
  source : Option String
  environment : Option String
deriving DecidableEq

/-- Whether `new_log` forwards the event to this connection: `True` when the
filter dict is empty, otherwise each present condition must equal the
event's corresponding field (`log_data.get(...)`, which is `None`-valued for
an absent optional field, never equal to a configured string). -/
def new_log_delivers (filters : SubscriberFilter) (log_data : NormalizedLog) : Bool :=
  if filters = ⟨none, none, none⟩ then true
  else
    (match filters.level with
      | some v => log_data.level == v
      | none => true) &&
    (match filters.source with
      | some v => log_data.source == some v
      | none => true) &&
    (match filters.environment with
      | some v => log_data.environment == some v
      | none => true)

/-! ### Concrete states used by counterexamples and witnesses -/

/-- Two adds at time 100 on a 10-second window: first timestamp 100, then the
out-of-order timestamp 50.  Pruning stops at the in-window head. -/
def swcOutOfOrder : SlidingWindowCounter :=
  ((⟨10, []⟩ : SlidingWindowCounter).add 100 (some 100)).add 100 (some 50)

def swcSorted : SlidingWindowCounter := ⟨10, [85, 95, 100]⟩

/-- A tracker already holding connection "a" on channel "ch". -/
def trackerCh : ConnectionTracker := ⟨[("ch", ["a"])], []⟩

/-- `{"@timestamp": "T1", "parsed": {"timestamp": "T2"}}`. -/
def payloadTimestamps : LogPayload :=
  ⟨none, none, some "T1", none, none, none, none, none, none,
   some ⟨some "T2", none, none, none, none, none, []⟩⟩

/-- `{"parsed": {"level": "ERROR", "message": "boom"}}`. -/
def payloadBoom : LogPayload :=
  ⟨none, none, none, none, none, none, none, none, none,
   some ⟨none, some "ERROR", some "boom", none, none, none, []⟩⟩

/-- A payload whose `parsed` object and top level disagree on every shared
field. -/
def payloadFull : LogPayload :=
  ⟨some "id1", some "id2", some "TT", some "WARNING", some "top-msg", some "top-src",
   some "host1", some "top-svc", some "top-env",
   some ⟨some "PT", some "ERROR", some "boom", some "api", some "svc", some "prod", []⟩⟩

/-- A normalized warning-level event. -/
def warningEvent : NormalizedLog :=
  ⟨"1", "T", "warning", "m", some "api", some "svc", some "prod", []⟩

def warnLd : LogData := ⟨some "warning", none, none⟩

def errLd : LogData := ⟨some "error", none, none⟩

def critLd : LogData := ⟨some "critical", none, none⟩

/-- The C3 scenario state: 900 warnings then 100 errors recorded at one
instant (all within any 60-second window). -/
def scenarioAgg : MetricsAggregator :=
  MetricsAggregator.init_counters.record_many 0
    (List.replicate 900 warnLd ++ List.replicate 100 errLd)

/-- The aggregator state after `k ≥ 1` warning events (no source,
no service name) recorded at time 0 from a fresh aggregator. -/
def warnState (k : ℕ) : MetricsAggregator :=
  ⟨⟨10, List.replicate k 0⟩, ⟨60, []⟩, ⟨60, List.replicate k 0⟩, ⟨60, []⟩,
   [("warning", ⟨60, List.replicate k 0⟩)],
   [("unknown", ⟨60, List.replicate k 0⟩)], [], [], 0⟩

/-- The aggregator state after `k ≥ 1` warning events and then `m ≥ 1` error
events recorded at time 0 from a fresh aggregator. -/
def warnErrState (k m : ℕ) : MetricsAggregator :=
  ⟨⟨10, List.replicate (k + m) 0⟩, ⟨60, List.replicate m 0⟩, ⟨60, List.replicate k 0⟩,
   ⟨60, []⟩,
   [("warning", ⟨60, List.replicate k 0⟩), ("error", ⟨60, List.replicate m 0⟩)],
   [("unknown", ⟨60, List.replicate (k + m) 0⟩)], [], [], 0⟩

/-- An aggregator state with one warning and two sources, for instantiating
the snapshot-shape theorem. -/
def aggEx : MetricsAggregator :=
  ⟨⟨10, [0]⟩, ⟨60, []⟩, ⟨60, [0]⟩, ⟨60, []⟩,
   [("warning", ⟨60, [0]⟩)],
   [("api", ⟨60, [0]⟩), ("db", ⟨60, [0, 0]⟩)],
   [], [], 0⟩

/-- A critical-level inbound frame. -/
def criticalMsg : RedisMessage :=
  ⟨"message",
   ⟨some "id9", none, some "T9", some "CRITICAL", some "boom", some "api",
    none, some "svc", some "prod", none⟩⟩

/-- An info-level inbound frame. -/
def infoMsg : RedisMessage :=
  ⟨"message",
   ⟨some "id3", none, some "T3", none, some "hello", some "api",
    none, some "svc", some "prod", none⟩⟩

/-! ### Helper lemmas -/

/-- An element that fails the predicate is never removed by `dropWhile`
(which only discards a prefix of satisfying elements). -/
lemma mem_dropWhile_of_not {α : Type} (p : α → Bool) (x : α) :
    ∀ l : List α, x ∈ l → p x = false → x ∈ l.dropWhile p := by
  intro l
  induction l with
  | nil => simp
  | cons a l ih =>
    intro hmem hpx
    rw [List.dropWhile_cons]
    by_cases hpa : p a = true
    · simp only [hpa, if_true]
      rcases List.mem_cons.mp hmem with h | h
      · subst h; rw [hpa] at hpx; cases hpx
      · exact ih h hpx
    · simp only [Bool.not_eq_true] at hpa
      simp [hpa, hmem]

/-- On a non-decreasing list, dropping the prefix of timestamps below the
cutoff is the same as filtering out every timestamp below the cutoff. -/
lemma dropWhile_lt_eq_filter_of_sorted (cutoff : ℤ) :
    ∀ l : List ℤ, l.Pairwise (· ≤ ·) →
      l.dropWhile (fun t => decide (t < cutoff)) = l.filter (fun t => decide (cutoff ≤ t)) := by
  intro l
  induction l with
  | nil => intro _; rfl
  | cons a l ih =>
    intro h
    rcases List.pairwise_cons.mp h with ⟨ha, hl⟩
    rw [List.dropWhile_cons, List.filter_cons]
    simp only [decide_eq_true_eq]
    by_cases hc : a < cutoff
    · rw [if_pos hc, if_neg (not_le.mpr hc)]
      exact ih hl
    · push_neg at hc
      rw [if_neg (not_lt.mpr hc), if_pos hc]
      have hfl : l.filter (fun t => decide (cutoff ≤ t)) = l := by
        apply List.filter_eq_self.mpr
        intro b hb
        exact decide_eq_true (le_trans hc (ha b hb))
      rw [hfl]

/-! ### Claim theorems -/

/-- C1 counterexample: the claim quantifies over *any* sequence of `add`
calls, but `_cleanup` only removes a prefix of the deque, so an out-of-order
stale timestamp hiding behind a fresh one is retained: after adding
timestamps 100 then 50 at now = 100 with window 10, the stale timestamp 50
(< now − W = 90) is still in the event sequence, and `count()` returns 2
although only one event lies within the most recent 10 seconds. -/
theorem C1_counterexample :
    (50 : ℤ) ∈ swcOutOfOrder.events ∧ (50 : ℤ) < 100 - 10 ∧
      swcOutOfOrder.count 100 = 2 ∧
      (swcOutOfOrder.events.filter (fun t => decide ((100 : ℤ) - 10 ≤ t))).length = 1 := by
  decide

/-- C1 amended: provided the recorded timestamps are non-decreasing (the
monotone arrival order the pruning loop assumes) and none exceeds the current
time, after pruning every retained timestamp lies in [now − W, now], and
`count()` equals the number of recorded events within the most recent W
seconds. -/
theorem C1_sliding_window_invariant (c : SlidingWindowCounter) (now : ℤ)
    (hs : c.events.Pairwise (· ≤ ·)) (hb : ∀ t ∈ c.events, t ≤ now) :
    (∀ t ∈ (c.cleanup now).events, now - c.window_seconds ≤ t ∧ t ≤ now) ∧
      c.count now =
        (c.events.filter (fun t => decide (now - c.window_seconds ≤ t))).length := by
  have hev : (c.cleanup now).events
      = c.events.filter (fun t => decide (now - c.window_seconds ≤ t)) :=
    dropWhile_lt_eq_filter_of_sorted (now - c.window_seconds) c.events hs
  constructor
  · intro t ht
    rw [hev] at ht
    rcases List.mem_filter.mp ht with ⟨hmem, hdec⟩
    exact ⟨of_decide_eq_true hdec, hb t hmem⟩
  · rw [SlidingWindowCounter.count, hev]

/-- C1 witness: the amended invariant instantiated on the concrete sorted
counter ⟨10, [85, 95, 100]⟩ observed at time 100. -/
theorem C1_sliding_window_invariant_witness :
    (∀ t ∈ (swcSorted.cleanup 100).events,
        (100 : ℤ) - swcSorted.window_seconds ≤ t ∧ t ≤ 100) ∧
      swcSorted.count 100 =
        (swcSorted.events.filter
          (fun t => decide ((100 : ℤ) - swcSorted.window_seconds ≤ t))).length :=
  C1_sliding_window_invariant swcSorted 100 (by decide) (by decide)

/-- C10: `ts = timestamp or time.time()` chooses by truthiness, so an
explicitly supplied falsy timestamp (0 or 0.0) records the current time —
indistinguishable from omitting the argument — while every non-zero supplied
timestamp is recorded itself (visible in the retained events whenever it is
within the window). -/
theorem C10_falsy_timestamp_records_now :
    (∀ (c : SlidingWindowCounter) (now : ℤ), c.add now (some 0) = c.add now none) ∧
      (∀ (c : SlidingWindowCounter) (now : ℤ),
        0 ≤ c.window_seconds → now ∈ (c.add now (some 0)).events) ∧
      (∀ (c : SlidingWindowCounter) (now t : ℤ),
        t ≠ 0 → now - c.window_seconds ≤ t → t ∈ (c.add now (some t)).events) := by
  refine ⟨?_, ?_, ?_⟩
  · intro c now
    simp [SlidingWindowCounter.add]
  · intro c now hw
    simp only [SlidingWindowCounter.add, if_pos rfl, SlidingWindowCounter.cleanup]
    apply mem_dropWhile_of_not
    · exact List.mem_append_right _ (List.mem_singleton.mpr rfl)
    · simp only [decide_eq_false_iff_not, not_lt]
      linarith
  · intro c now t ht hin
    simp only [SlidingWindowCounter.add, if_neg ht, SlidingWindowCounter.cleanup]
    apply mem_dropWhile_of_not
    · exact List.mem_append_right _ (List.mem_singleton.mpr rfl)
    · simp only [decide_eq_false_iff_not, not_lt]
      exact hin

/-- C10 witness: the three parts instantiated on the empty 10-second counter
at time 5 (and supplied timestamp 3 for the non-zero case). -/
theorem C10_falsy_timestamp_records_now_witness :
    (⟨10, []⟩ : SlidingWindowCounter).add 5 (some 0)
        = (⟨10, []⟩ : SlidingWindowCounter).add 5 none ∧
      (5 : ℤ) ∈ ((⟨10, []⟩ : SlidingWindowCounter).add 5 (some 0)).events ∧
      (3 : ℤ) ∈ ((⟨10, []⟩ : SlidingWindowCounter).add 5 (some 3)).events :=
  ⟨C10_falsy_timestamp_records_now.1 ⟨10, []⟩ 5,
   C10_falsy_timestamp_records_now.2.1 ⟨10, []⟩ 5 (by decide),
   C10_falsy_timestamp_records_now.2.2 ⟨10, []⟩ 5 3 (by decide) (by decide)⟩

lemma reconnectStep_pow (k : ℕ) :
    RedisPubSubBridge.reconnectStep (min (2 ^ k) 30) = min (2 ^ (k + 1)) 30 := by
  rcases le_or_lt (2 ^ k) 30 with h | h
  · rw [RedisPubSubBridge.reconnectStep, min_eq_left h, pow_succ]
  · have h2 : 30 < 2 ^ (k + 1) := lt_of_lt_of_le h (by rw [pow_succ]; omega)
    rw [RedisPubSubBridge.reconnectStep, min_eq_right h.le, min_eq_right h2.le]
    omega

lemma sleeps_replicate_pow (n : ℕ) :
    ∀ k : ℕ, RedisPubSubBridge.sleeps (min (2 ^ k) 30) (List.replicate n false)
      = (List.range n).map (fun i => min (2 ^ (k + i)) 30) := by
  induction n with
  | zero => intro k; rfl
  | succ n ih =>
    intro k
    rw [List.replicate_succ, List.range_succ_eq_map]
    show min (2 ^ k) 30 ::
        RedisPubSubBridge.sleeps (RedisPubSubBridge.reconnectStep (min (2 ^ k) 30))
          (List.replicate n false) = _
    rw [reconnectStep_pow, ih (k + 1), List.map_cons, List.map_map]
    congr 1
    apply List.map_congr_left
    intro a _
    simp only [Function.comp_apply]
    congr 2
    omega

/-- C2: for any number `n` of consecutive connection failures in a fresh run
(initial delay 1), the successive sleep delays are
`min(2^i, 30)` for `i = 0, 1, …, n−1`, i.e. 1, 2, 4, 8, 16, 30, 30, …;
and after any successful connect the delay is reset, so the delays following
a success are again 1, 2, 4, 8, 16, 30, 30, …. -/
theorem C2_reconnect_backoff :
    (∀ n : ℕ, RedisPubSubBridge.sleeps 1 (List.replicate n false)
        = (List.range n).map (fun i => min (2 ^ i) 30)) ∧
      (∀ (d : ℕ) (n : ℕ),
        RedisPubSubBridge.sleeps d (true :: List.replicate n false)
          = (List.range n).map (fun i => min (2 ^ i) 30)) := by
  have key : ∀ n : ℕ, RedisPubSubBridge.sleeps 1 (List.replicate n false)
      = (List.range n).map (fun i => min (2 ^ i) 30) := by
    intro n
    have h := sleeps_replicate_pow n 0
    simpa using h
  exact ⟨key, fun d n => key n⟩

lemma lookup_eq_none_of_not_mem_keys {β : Type} (k : String) :
    ∀ l : List (String × β), k ∉ l.map Prod.fst → l.lookup k = none := by
  intro l hk
  rw [List.lookup_eq_none_iff]
  intro p hp
  simp only [bne_iff_ne, ne_eq]
  intro h
  exact hk (List.mem_map.mpr ⟨p, hp, h.symm⟩)

lemma lookup_dictInsert {β : Type} (k : String) (v : β) :
    ∀ l : List (String × β), (dictInsert l k v).lookup k = some v := by
  intro l
  induction l with
  | nil => simp [dictInsert]
  | cons p rest ih =>
    obtain ⟨a, b⟩ := p
    rw [dictInsert]
    by_cases h : a = k
    · rw [if_pos h, List.lookup_cons_self]
    · rw [if_neg h, List.lookup_cons]
      have : (k == a) = false := beq_eq_false_iff_ne.mpr (Ne.symm h)
      rw [this]
      exact ih

lemma dictInsert_lookup_self {β : Type} (k : String) :
    ∀ (l : List (String × β)) (v : β), l.lookup k = some v → dictInsert l k v = l := by
  intro l
  induction l with
  | nil => intro v hv; cases hv
  | cons p rest ih =>
    obtain ⟨a, b⟩ := p
    intro v hv
    rw [List.lookup_cons] at hv
    rw [dictInsert]
    by_cases h : a = k
    · subst h
      rw [beq_self_eq_true] at hv
      simp only [if_pos rfl]
      cases hv
      rfl
    · have : (k == a) = false := beq_eq_false_iff_ne.mpr (Ne.symm h)
      rw [this] at hv
      rw [if_neg h, ih v hv]

lemma mem_keys_dictInsert {β : Type} (k x : String) (v : β) :
    ∀ l : List (String × β),
      x ∈ (dictInsert l k v).map Prod.fst → x ∈ l.map Prod.fst ∨ x = k := by
  intro l
  induction l with
  | nil => simp [dictInsert]
  | cons p rest ih =>
    obtain ⟨a, b⟩ := p
    rw [dictInsert]
    by_cases h : a = k
    · rw [if_pos h]
      intro hx
      rcases List.mem_cons.mp hx with h1 | h1
      · right; exact h1
      · left; exact List.mem_cons_of_mem _ h1
    · rw [if_neg h]
      intro hx
      rcases List.mem_cons.mp hx with h1 | h1
      · left; simp [h1]
      · rcases ih h1 with h2 | h2
        · left; exact List.mem_cons_of_mem _ h2
        · right; exact h2

lemma keys_dictInsert_nodup {β : Type} (k : String) (v : β) :
    ∀ l : List (String × β),
      (l.map Prod.fst).Nodup → ((dictInsert l k v).map Prod.fst).Nodup := by
  intro l
  induction l with
  | nil => intro _; simp [dictInsert]
  | cons p rest ih =>
    obtain ⟨a, b⟩ := p
    intro hnd
    rw [List.map_cons, List.nodup_cons] at hnd
    rw [dictInsert]
    by_cases h : a = k
    · rw [if_pos h, List.map_cons, List.nodup_cons]
      exact ⟨h ▸ hnd.1, hnd.2⟩
    · rw [if_neg h, List.map_cons, List.nodup_cons]
      refine ⟨?_, ih hnd.2⟩
      intro hmem
      rcases mem_keys_dictInsert k a v rest hmem with h1 | h1
      · exact hnd.1 h1
      · exact h h1

lemma lookup_dictRemove {β : Type} (k : String) :
    ∀ l : List (String × β), (l.map Prod.fst).Nodup → (dictRemove l k).lookup k = none := by
  intro l
  induction l with
  | nil => intro _; rfl
  | cons p rest ih =>
    obtain ⟨a, b⟩ := p
    intro hnd
    rw [List.map_cons, List.nodup_cons] at hnd
    rw [dictRemove]
    by_cases h : a = k
    · rw [if_pos h]
      exact lookup_eq_none_of_not_mem_keys k rest (h ▸ hnd.1)
    · rw [if_neg h, List.lookup_cons]
      have : (k == a) = false := beq_eq_false_iff_ne.mpr (Ne.symm h)
      rw [this]
      exact ih hnd.2

/-- C7 counterexample: the claim's round-trip part fails when the id is
already registered — `add_connection` is then idempotent (set add), but
`remove_connection` still deletes the id, so the registry ends one below its
prior count: on `{"ch": {"a"}}` the prior count is 1 but add-then-remove of
("ch", "a") leaves 0. -/
theorem C7_counterexample :
    trackerCh.get_count "ch" = 1 ∧
      (((trackerCh.add_connection "ch" "a" none).1).remove_connection "ch" "a").2 = 0 := by
  decide

/-- C7 amended: in any registry whose channel keys are distinct (always true
of a Python dict), (1) when the id is *not* already present on the channel,
`add_connection` then `remove_connection` of the same (channel, id) returns
the channel to its prior count; (2) when the id is already present,
`add_connection` is idempotent: it returns the unchanged count and (absent
user info) leaves the registry unchanged; (3) `remove_connection` of an
absent id never errs and returns the channel's unchanged count. -/
theorem C7_connection_registry (t : ConnectionTracker) (g c : String) (u : Option String)
    (hnd : (t.connections.map Prod.fst).Nodup) :
    (c ∉ (t.connections.lookup g).getD [] →
      (((t.add_connection g c u).1).remove_connection g c).2 = t.get_count g) ∧
      (c ∈ (t.connections.lookup g).getD [] →
        (t.add_connection g c u).2 = t.get_count g ∧ (t.add_connection g c none).1 = t) ∧
      (c ∉ (t.connections.lookup g).getD [] →
        (t.remove_connection g c).2 = t.get_count g) := by
  refine ⟨?_, ?_, ?_⟩
  · intro hc
    have hadd : (t.add_connection g c u).1.connections
        = dictInsert t.connections g (((t.connections.lookup g).getD []) ++ [c]) := by
      simp [ConnectionTracker.add_connection, hc]
    have hlook : ((t.add_connection g c u).1.connections).lookup g
        = some (((t.connections.lookup g).getD []) ++ [c]) := by
      rw [hadd]; exact lookup_dictInsert g _ t.connections
    have herase : ((((t.connections.lookup g).getD []) ++ [c]).erase c)
        = (t.connections.lookup g).getD [] := by
      rw [List.erase_append_right _ hc, List.erase_cons_head, List.append_nil]
    rw [ConnectionTracker.remove_connection]
    simp only [hlook, herase]
    by_cases he : (t.connections.lookup g).getD [] = []
    · rw [if_pos he]
      have hnone : ((dictRemove ((t.add_connection g c u).1.connections) g).lookup g) = none := by
        apply lookup_dictRemove
        rw [hadd]
        exact keys_dictInsert_nodup g _ t.connections hnd
      simp [hnone, ConnectionTracker.get_count, he]
    · rw [if_neg he]
      simp [lookup_dictInsert, ConnectionTracker.get_count]
  · intro hc
    have hsome : t.connections.lookup g = some ((t.connections.lookup g).getD []) := by
      cases hl : t.connections.lookup g with
      | none => simp [hl] at hc
      | some v => rfl
    constructor
    · simp [ConnectionTracker.add_connection, hc, ConnectionTracker.get_count]
    · have := dictInsert_lookup_self g t.connections ((t.connections.lookup g).getD []) hsome
      simp [ConnectionTracker.add_connection, hc, this]
  · intro hc
    rw [ConnectionTracker.remove_connection]
    cases hl : t.connections.lookup g with
    | none =>
      simp [ConnectionTracker.get_count, hl]
    | some conns =>
      have hcc : c ∉ conns := by rw [hl] at hc; exact hc
      have herase : conns.erase c = conns := List.erase_of_not_mem hcc
      simp only [herase]
      by_cases he : conns = []
      · rw [if_pos he]
        have hnone : (dictRemove t.connections g).lookup g = none :=
          lookup_dictRemove g t.connections hnd
        simp [hnone, ConnectionTracker.get_count, hl, he]
      · rw [if_neg he]
        simp [lookup_dictInsert, ConnectionTracker.get_count, hl]

/-- C7 witness: the amended theorem on the registry `{"ch": {"a"}}`:
round-trip for the fresh id "b", idempotence for the present id "a", and
removal of the absent id "b". -/
theorem C7_connection_registry_witness :
    (((trackerCh.add_connection "ch" "b" none).1).remove_connection "ch" "b").2
        = trackerCh.get_count "ch" ∧
      (trackerCh.add_connection "ch" "a" none).2 = trackerCh.get_count "ch" ∧
      (trackerCh.add_connection "ch" "a" none).1 = trackerCh ∧
      (trackerCh.remove_connection "ch" "b").2 = trackerCh.get_count "ch" :=
  ⟨(C7_connection_registry trackerCh "ch" "b" none (by decide)).1 (by decide),
   ((C7_connection_registry trackerCh "ch" "a" none (by decide)).2.1 (by decide)).1,
   ((C7_connection_registry trackerCh "ch" "a" none (by decide)).2.1 (by decide)).2,
   (C7_connection_registry trackerCh "ch" "b" none (by decide)).2.2 (by decide)⟩

/-- C8: a connection's stored filter delivers an event exactly when every
present condition (level, source, environment) equals the event's
corresponding field; in particular a `{level: "error"}` filter never passes
a warning-level event, while an empty filter passes every event. -/
theorem C8_subscriber_filter_semantics :
    (∀ (f : SubscriberFilter) (d : NormalizedLog),
      new_log_delivers f d = true ↔
        ((∀ v, f.level = some v → d.level = v) ∧
          (∀ v, f.source = some v → d.source = some v) ∧
          (∀ v, f.environment = some v → d.environment = some v))) ∧
      (∀ d : NormalizedLog, d.level = "warning" →
        new_log_delivers ⟨some "error", none, none⟩ d = false) ∧
      (∀ d : NormalizedLog, new_log_delivers ⟨none, none, none⟩ d = true) := by
  refine ⟨?_, ?_, ?_⟩
  · intro f d
    obtain ⟨fl, fs, fe⟩ := f
    rcases fl with _ | lv <;> rcases fs with _ | sv <;> rcases fe with _ | ev <;>
      simp [new_log_delivers, SubscriberFilter.mk.injEq, beq_iff_eq, and_assoc]
  · intro d hd
    simp [new_log_delivers, SubscriberFilter.mk.injEq, hd]
  · intro d
    simp [new_log_delivers]

/-- C8 witness: the concrete warning-level event is rejected by the
`{level: "error"}` filter and accepted by the empty filter. -/
theorem C8_subscriber_filter_semantics_witness :
    new_log_delivers ⟨some "error", none, none⟩ warningEvent = false ∧
      new_log_delivers ⟨none, none, none⟩ warningEvent = true :=
  ⟨C8_subscriber_filter_semantics.2.1 warningEvent rfl,
   C8_subscriber_filter_semantics.2.2 warningEvent⟩

/-- C5 counterexample: for the timestamp field the code reads
`log_data.get('@timestamp') or parsed.get('timestamp') or …`, so the
*top-level* `@timestamp` wins over the nested parsed timestamp, contrary to
the claimed parsed-over-top-level precedence: normalizing
`{"@timestamp": "T1", "parsed": {"timestamp": "T2"}}` yields timestamp "T1",
not the parsed "T2". -/
theorem C5_counterexample :
    (normalize_log 0 "NOW" payloadTimestamps).timestamp = "T1" ∧
      (payloadTimestamps.parsed.getD emptyParsed).timestamp = some "T2" ∧
      "T1" ≠ "T2" := by
  decide

/-- C5 amended: normalization prefers each truthy field of the nested
`parsed` object over the corresponding top-level field for level (also
lower-cased, defaulting to "info" when both are absent), message, source,
service_name and environment — but for timestamp the top-level `@timestamp`
takes precedence over parsed's timestamp; normalizing
`{"parsed": {"level": "ERROR", "message": "boom"}}` yields level "error"
and message "boom". -/
theorem C5_parsed_precedence (now : ℤ) (iso : String) (p : LogPayload) (pf : ParsedFields)
    (hp : p.parsed = some pf) :
    (∀ v, pf.level = some v → v ≠ "" → (normalize_log now iso p).level = pyLower v) ∧
      (∀ v, pf.message = some v → v ≠ "" → (normalize_log now iso p).message = v) ∧
      (∀ v, pf.source = some v → v ≠ "" → (normalize_log now iso p).source = some v) ∧
      (∀ v, pf.service_name = some v → v ≠ "" →
        (normalize_log now iso p).service_name = some v) ∧
      (∀ v, pf.environment = some v → v ≠ "" →
        (normalize_log now iso p).environment = some v) ∧
      (pf.level = none → p.level = none → (normalize_log now iso p).level = "info") ∧
      (∀ v, p.atTimestamp = some v → v ≠ "" → (normalize_log now iso p).timestamp = v) ∧
      (normalize_log now iso payloadBoom).level = "error" ∧
      (normalize_log now iso payloadBoom).message = "boom" := by
  refine ⟨?_, ?_, ?_, ?_, ?_, ?_, ?_, ?_, ?_⟩
  · intro v hv hne
    simp [normalize_log, hp, pyOrD, hv, hne]
  · intro v hv hne
    simp [normalize_log, hp, pyOrD, hv, hne]
  · intro v hv hne
    simp [normalize_log, hp, pyOr, hv, hne]
  · intro v hv hne
    simp [normalize_log, hp, pyOr, hv, hne]
  · intro v hv hne
    simp [normalize_log, hp, pyOr, hv, hne]
  · intro h1 h2
    rw [show (normalize_log now iso p).level
        = pyLower (pyOrD pf.level (p.level.getD "info")) by simp [normalize_log, hp]]
    rw [h1, h2]
    decide
  · intro v hv hne
    simp [normalize_log, pyOrD, hv, hne]
  · rw [show (normalize_log now iso payloadBoom).level
        = pyLower (if "ERROR" = "" then "info" else "ERROR") from rfl]
    decide
  · rw [show (normalize_log now iso payloadBoom).message
        = (if "boom" = "" then "" else "boom") from rfl]
    decide

/-- C5 witness: the amended precedence instantiated on the payload whose
parsed and top-level fields all disagree: every parsed field wins except
timestamp, where the top-level `@timestamp` "TT" wins. -/
theorem C5_parsed_precedence_witness :
    (normalize_log 7 "ISO" payloadFull).level = pyLower "ERROR" ∧
      (normalize_log 7 "ISO" payloadFull).message = "boom" ∧
      (normalize_log 7 "ISO" payloadFull).source = some "api" ∧
      (normalize_log 7 "ISO" payloadFull).service_name = some "svc" ∧
      (normalize_log 7 "ISO" payloadFull).environment = some "prod" ∧
      (normalize_log 7 "ISO" payloadFull).timestamp = "TT" :=
  ⟨(C5_parsed_precedence 7 "ISO" payloadFull _ rfl).1 "ERROR" rfl (by decide),
   (C5_parsed_precedence 7 "ISO" payloadFull _ rfl).2.1 "boom" rfl (by decide),
   (C5_parsed_precedence 7 "ISO" payloadFull _ rfl).2.2.1 "api" rfl (by decide),
   (C5_parsed_precedence 7 "ISO" payloadFull _ rfl).2.2.2.1 "svc" rfl (by decide),
   (C5_parsed_precedence 7 "ISO" payloadFull _ rfl).2.2.2.2.1 "prod" rfl (by decide),
   (C5_parsed_precedence 7 "ISO" payloadFull _ rfl).2.2.2.2.2.2.1 "TT" rfl (by decide)⟩

/-- C9 counterexample: the snapshot dict returned by `get_metrics()` has no
key named `connected_subscribers` (on the fresh aggregator and empty
tracker, and — by the amended theorem — on every state: the live-connection
field is spelled `connected_users`). -/
theorem C9_counterexample :
    (MetricsAggregator.init_counters.get_metrics ⟨[], []⟩ 0).lookup
      "connected_subscribers" = none := by
  decide

/-- C9 amended: for every aggregator state, tracker state and time, the
snapshot contains the field `connected_users` (not `connected_subscribers`),
and its value is the tracker's current count for the primary log channel
"log_stream". -/
theorem C9_connected_users_field (a : MetricsAggregator) (t : ConnectionTracker) (now : ℤ) :
    (a.get_metrics t now).lookup "connected_users"
        = some (.nat (t.get_count "log_stream")) ∧
      (a.get_metrics t now).lookup "connected_subscribers" = none := by
  constructor <;> rfl

/-- C4: in every snapshot, `level_distribution` contains only levels with a
nonzero 60-second count, and `top_sources` has length at most 10, contains
only sources with nonzero counts, and is sorted non-increasing by count. -/
theorem C4_metrics_snapshot_shape (a : MetricsAggregator) (t : ConnectionTracker) (now : ℤ) :
    ((a.get_metrics t now).lookup "level_distribution"
        = some (.dict (a.level_distribution now))) ∧
      ((a.get_metrics t now).lookup "top_sources" = some (.sources (a.top_sources now))) ∧
      (∀ p ∈ a.level_distribution now, 0 < p.2) ∧
      (a.top_sources now).length ≤ 10 ∧
      (∀ p ∈ a.top_sources now, 0 < p.2) ∧
      (a.top_sources now).Pairwise (fun x y => y.2 ≤ x.2) := by
  refine ⟨rfl, rfl, ?_, ?_, ?_, ?_⟩
  · intro p hp
    exact of_decide_eq_true (List.mem_filter.mp hp).2
  · rw [MetricsAggregator.top_sources, List.length_take]
    exact min_le_left _ _
  · intro p hp
    rw [MetricsAggregator.top_sources] at hp
    have hp2 := (List.take_sublist _ _).subset hp
    have hp3 := (List.mergeSort_perm _ _).subset hp2
    exact of_decide_eq_true (List.mem_filter.mp hp3).2
  · rw [MetricsAggregator.top_sources]
    apply List.Pairwise.sublist (List.take_sublist _ _)
    have htrans : ∀ x y z : String × ℕ,
        decide (y.2 ≤ x.2) = true → decide (z.2 ≤ y.2) = true →
          decide (z.2 ≤ x.2) = true := by
      intro x y z hxy hyz
      exact decide_eq_true (le_trans (of_decide_eq_true hyz) (of_decide_eq_true hxy))
    have htotal : ∀ x y : String × ℕ,
        (decide (y.2 ≤ x.2) || decide (x.2 ≤ y.2)) = true := by
      intro x y
      rcases Nat.le_total y.2 x.2 with h | h
      · simp [h]
      · simp [h]
    have hs := @List.sorted_mergeSort (String × ℕ) (fun x y => decide (y.2 ≤ x.2))
      htrans htotal
      ((a.source_counters.map (fun p => (p.1, p.2.count now))).filter
        (fun p => decide (0 < p.2)))
    exact hs.imp (fun h => of_decide_eq_true h)

/-- C4 witness: the snapshot shape on the concrete aggregator holding one
warning and sources "api" (count 1) and "db" (count 2). -/
theorem C4_metrics_snapshot_shape_witness :
    (∀ p ∈ aggEx.level_distribution 0, 0 < p.2) ∧
      (aggEx.top_sources 0).length ≤ 10 ∧
      (aggEx.top_sources 0).Pairwise (fun x y => y.2 ≤ x.2) :=
  ⟨(C4_metrics_snapshot_shape aggEx ⟨[], []⟩ 0).2.2.1,
   (C4_metrics_snapshot_shape aggEx ⟨[], []⟩ 0).2.2.2.1,
   (C4_metrics_snapshot_shape aggEx ⟨[], []⟩ 0).2.2.2.2.2⟩

lemma dropWhile_replicate_of_neg {α : Type} (p : α → Bool) (x : α) (h : p x = false) :
    ∀ n : ℕ, (List.replicate n x).dropWhile p = List.replicate n x := by
  intro n
  cases n with
  | zero => rfl
  | succ n => rw [List.replicate_succ, List.dropWhile_cons, h]; simp

lemma add_zero_replicate (w : ℤ) (hw : 0 ≤ w) (n : ℕ) :
    (⟨w, List.replicate n 0⟩ : SlidingWindowCounter).add 0 (some 0)
      = ⟨w, List.replicate (n + 1) 0⟩ := by
  simp only [SlidingWindowCounter.add, SlidingWindowCounter.cleanup, ite_self]
  congr 1
  rw [← List.replicate_succ']
  apply dropWhile_replicate_of_neg
  simp only [decide_eq_false_iff_not, not_lt]
  omega

lemma count_replicate (w : ℤ) (hw : 0 ≤ w) (n : ℕ) :
    (⟨w, List.replicate n 0⟩ : SlidingWindowCounter).count 0 = n := by
  rw [SlidingWindowCounter.count, SlidingWindowCounter.cleanup]
  simp only
  rw [dropWhile_replicate_of_neg _ _ (by simp only [decide_eq_false_iff_not, not_lt]; omega)]
  exact List.length_replicate n 0

lemma lookup_cons_ne {β : Type} (k a : String) (b : β) (es : List (String × β))
    (h : (k == a) = false) : List.lookup k ((a, b) :: es) = List.lookup k es := by
  simp [List.lookup_cons, h]

lemma record_many_cons (a : MetricsAggregator) (x : LogData) (xs : List LogData) :
    a.record_many 0 (x :: xs) = (a.record_log 0 x).record_many 0 xs := rfl

lemma record_many_append (a : MetricsAggregator) (l1 l2 : List LogData) :
    a.record_many 0 (l1 ++ l2) = (a.record_many 0 l1).record_many 0 l2 := by
  simp [MetricsAggregator.record_many, List.foldl_append]

lemma record_warn_step (k : ℕ) :
    (warnState k).record_log 0 warnLd = warnState (k + 1) := by
  have h10 := add_zero_replicate 10 (by omega) k
  have h60 := add_zero_replicate 60 (by omega) k
  simp [MetricsAggregator.record_log, warnState, warnLd, dictInsert, pyOrD,
    h10, h60, show pyLower "warning" = "warning" from by decide]

lemma record_err_first_step (k : ℕ) :
    (warnState k).record_log 0 errLd = warnErrState k 1 := by
  have h10 := add_zero_replicate 10 (by omega) k
  have h60 := add_zero_replicate 60 (by omega) k
  simp [MetricsAggregator.record_log, warnState, warnErrState, errLd, dictInsert, pyOrD,
    h10, h60, lookup_cons_ne, show pyLower "error" = "error" from by decide,
    show (⟨60, ([] : List ℤ)⟩ : SlidingWindowCounter).add 0 (some 0) = ⟨60, [0]⟩ from by decide]

lemma record_err_step (k m : ℕ) :
    (warnErrState k m).record_log 0 errLd = warnErrState k (m + 1) := by
  have h10 := add_zero_replicate 10 (by omega) (k + m)
  have h60 := add_zero_replicate 60 (by omega) m
  have h60u := add_zero_replicate 60 (by omega) (k + m)
  simp [MetricsAggregator.record_log, warnErrState, errLd, dictInsert, pyOrD,
    show k + (m + 1) = k + m + 1 from by omega,
    h10, h60, h60u, lookup_cons_ne, show pyLower "error" = "error" from by decide]

lemma record_many_warn (n : ℕ) :
    ∀ k : ℕ, (warnState k).record_many 0 (List.replicate n warnLd) = warnState (k + n) := by
  induction n with
  | zero => intro k; rfl
  | succ n ih =>
    intro k
    rw [List.replicate_succ, record_many_cons, record_warn_step, ih (k + 1)]
    congr 1
    omega

lemma record_many_err (n : ℕ) :
    ∀ k m : ℕ, (warnErrState k m).record_many 0 (List.replicate n errLd)
      = warnErrState k (m + n) := by
  induction n with
  | zero => intro k m; rfl
  | succ n ih =>
    intro k m
    rw [List.replicate_succ, record_many_cons, record_err_step, ih k (m + 1)]
    congr 1
    omega

/-- The 1000-event scenario trace collapses to the closed-form state. -/
lemma scenario_state : scenarioAgg = warnErrState 900 100 := by
  have h1 : MetricsAggregator.init_counters.record_log 0 warnLd = warnState 1 := by decide
  have hrep900 : List.replicate 900 warnLd = warnLd :: List.replicate 899 warnLd := by
    rw [show (900 : ℕ) = 899 + 1 from by norm_num, List.replicate_succ]
  have hrep100 : List.replicate 100 errLd = errLd :: List.replicate 99 errLd := by
    rw [show (100 : ℕ) = 99 + 1 from by norm_num, List.replicate_succ]
  have h2 : (warnState 1).record_many 0 (List.replicate 899 warnLd) = warnState 900 := by
    rw [record_many_warn 899 1]
  have h4 : (warnErrState 900 1).record_many 0 (List.replicate 99 errLd)
      = warnErrState 900 100 := by
    rw [record_many_err 99 900 1]
  rw [scenarioAgg, record_many_append, hrep900, record_many_cons, h1, h2,
    hrep100, record_many_cons, record_err_first_step, h4]

lemma dropWhile_dropWhile {α : Type} (p : α → Bool) :
    ∀ l : List α, (l.dropWhile p).dropWhile p = l.dropWhile p := by
  intro l
  induction l with
  | nil => rfl
  | cons a l ih =>
    by_cases h : p a = true
    · simp [List.dropWhile_cons, h, ih]
    · simp only [Bool.not_eq_true] at h
      simp [List.dropWhile_cons, h]

/-- `add` ends in `_cleanup`, so a further `_cleanup` at the same instant is
the identity (the sampling branch of `record_log` re-prunes counters it has
just pruned). -/
lemma cleanup_add (c : SlidingWindowCounter) (now : ℤ) (ts : Option ℤ) :
    (c.add now ts).cleanup now = c.add now ts := by
  simp only [SlidingWindowCounter.add, SlidingWindowCounter.cleanup]
  congr 1
  exact dropWhile_dropWhile _ _

set_option maxRecDepth 100000 in
/-- C3: recording a "critical" event appends the event to *both* the
60-second criticals counter and the 60-second errors counter; and recording
900 "warning" plus 100 "error" events within one 60-second window yields a
snapshot with `errors_per_minute == 100`, `warnings_per_minute == 900`, and
`level_distribution == {"warning": 900, "error": 100}`. -/
theorem C3_critical_counts_and_scenario :
    (∀ (a : MetricsAggregator) (now : ℤ) (ld : LogData),
        pyLower (ld.level.getD "info") = "critical" →
          (a.record_log now ld).criticals_counter = a.criticals_counter.add now (some now) ∧
            (a.record_log now ld).errors_counter = a.errors_counter.add now (some now)) ∧
      (scenarioAgg.get_metrics ⟨[], []⟩ 0).lookup "errors_per_minute" = some (.nat 100) ∧
      (scenarioAgg.get_metrics ⟨[], []⟩ 0).lookup "warnings_per_minute" = some (.nat 900) ∧
      (scenarioAgg.get_metrics ⟨[], []⟩ 0).lookup "level_distribution"
        = some (.dict [("warning", 900), ("error", 100)]) := by
  constructor
  · intro a now ld h
    have hne1 : ("critical" = "error") = False := by simp
    have hne2 : ("critical" = "warning") = False := by simp
    refine ⟨?_, ?_⟩ <;>
      (simp only [MetricsAggregator.record_log, h, hne1, hne2, if_false, eq_self_iff_true,
         if_true]
       split_ifs <;> simp [cleanup_add])
  · rw [scenario_state]
    decide

/-- C3 witness: recording the concrete critical event on the fresh
aggregator at time 5 appends the timestamp to both counters. -/
theorem C3_critical_counts_and_scenario_witness :
    (MetricsAggregator.init_counters.record_log 5 critLd).criticals_counter
        = MetricsAggregator.init_counters.criticals_counter.add 5 (some 5) ∧
      (MetricsAggregator.init_counters.record_log 5 critLd).errors_counter
        = MetricsAggregator.init_counters.errors_counter.add 5 (some 5) :=
  C3_critical_counts_and_scenario.1 MetricsAggregator.init_counters 5 critLd (by decide)

/-- C6: for every well-formed inbound frame (pub/sub type "message"),
processing delivers exactly one message to "log_stream"; when the normalized
level is "error" or "critical" it additionally delivers exactly one alert to
the notifications channel, whose severity is "critical" iff the level is
critical (else "high") and whose message is truncated to at most 200
characters; for any other level (e.g. "info") the delivery list is exactly
the single "log_stream" message. -/
theorem C6_process_message_deliveries (a : MetricsAggregator) (now : ℤ) (iso : String)
    (msg : RedisMessage) (h : msg.type = "message") :
    ((process_message a now iso msg).2.filter (fun d => d.1 == "log_stream")).length = 1 ∧
      ((pyLower (normalize_log now iso msg.data).level = "error" ∨
          pyLower (normalize_log now iso msg.data).level = "critical") →
        ((process_message a now iso msg).2.filter
            (fun d => d.1 == "notifications_broadcast")).length = 1 ∧
          (∀ p ∈ (process_message a now iso msg).2, p.1 = "notifications_broadcast" →
            ∃ ad, p.2 = GroupMessage.alert_notification ad ∧
              ad.severity = (if pyLower (normalize_log now iso msg.data).level = "critical"
                then "critical" else "high") ∧
              ad.message.length ≤ 200)) ∧
      (¬(pyLower (normalize_log now iso msg.data).level = "error" ∨
          pyLower (normalize_log now iso msg.data).level = "critical") →
        (process_message a now iso msg).2
          = [("log_stream", .new_log (normalize_log now iso msg.data))]) := by
  have hmsg : ¬(msg.type ≠ "message") := by simp [h]
  by_cases hl : pyLower (normalize_log now iso msg.data).level = "error" ∨
      pyLower (normalize_log now iso msg.data).level = "critical"
  · refine ⟨?_, fun _ => ⟨?_, ?_⟩, fun hcon => absurd hl hcon⟩
    · simp only [process_message, if_neg hmsg, if_pos hl]
      simp [show ("log_stream" == "log_stream") = true from by decide,
        show ("notifications_broadcast" == "log_stream") = false from by decide]
    · simp only [process_message, if_neg hmsg, if_pos hl]
      simp [show ("log_stream" == "notifications_broadcast") = false from by decide,
        show ("notifications_broadcast" == "notifications_broadcast") = true from by decide]
    · intro p hp hpn
      simp only [process_message, if_neg hmsg, if_pos hl] at hp
      rcases List.mem_cons.mp hp with h1 | h1
      · rw [h1] at hpn
        simp at hpn
      · rw [List.mem_singleton.mp h1]
        refine ⟨_, rfl, rfl, ?_⟩
        simp only [strTake]
        calc (String.mk ((normalize_log now iso msg.data).message.data.take 200)).length
            = ((normalize_log now iso msg.data).message.data.take 200).length := rfl
          _ ≤ 200 := by rw [List.length_take]; exact min_le_left _ _
  · refine ⟨?_, fun hcon => absurd hcon hl, fun _ => ?_⟩
    · simp only [process_message, if_neg hmsg, if_neg hl]
      simp [show ("log_stream" == "log_stream") = true from by decide]
    · simp only [process_message, if_neg hmsg, if_neg hl]

/-- C6 witness: the concrete critical frame produces one "log_stream" and
one notifications delivery, and the concrete info frame produces exactly the
single "log_stream" delivery. -/
theorem C6_process_message_deliveries_witness :
    ((process_message MetricsAggregator.init_counters 0 "X" criticalMsg).2.filter
        (fun d => d.1 == "log_stream")).length = 1 ∧
      ((process_message MetricsAggregator.init_counters 0 "X" criticalMsg).2.filter
          (fun d => d.1 == "notifications_broadcast")).length = 1 ∧
      (process_message MetricsAggregator.init_counters 0 "X" infoMsg).2
        = [("log_stream", .new_log (normalize_log 0 "X" infoMsg.data))] :=
  ⟨(C6_process_message_deliveries MetricsAggregator.init_counters 0 "X" criticalMsg rfl).1,
   ((C6_process_message_deliveries MetricsAggregator.init_counters 0 "X" criticalMsg rfl).2.1
      (by decide)).1,
   (C6_process_message_deliveries MetricsAggregator.init_counters 0 "X" infoMsg rfl).2.2
      (by decide)⟩
